import Mathlib

/-!
Verification of the orchestration and resilience core of a travel MCP
client/server pair: the Gemini dispatch loop and session lifecycle in
src/client/client.py, the schema translation in src/client/gemini_service.py,
and the resilient HTTP layer in src/server/server.py.

Each Python function is shallowly embedded as a Lean definition; external
effects (the Gemini API, the MCP transport, the network) are modelled as
explicit environment parameters describing the outcome of each call.
-/

namespace AitklMcp

/-! ### Dispatcher data model (client.py)

A Gemini response part is duck-typed in the source: the dispatcher checks
hasattr(part, 'function_call') first and hasattr(part, 'text') second.
We model attribute presence with Option fields. -/

/-- A function-call requested by the model: capability name plus arguments.
Mirrors part.function_call with fields .name and .args. -/
structure Invocation where
  name : String
  args : List (String × String)
deriving DecidableEq, Repr

/-- One part of a Gemini model turn. A field is some _ exactly when the
Python object exposes the corresponding attribute. -/
structure Part where
  function_call : Option Invocation
  text : Option String
deriving DecidableEq, Repr

/-- Outcome of executing one invocation: either the session call and the
Gemini summarisation both succeed, yielding the interpretation text, or
some exception is raised, carrying its message (str(e)). -/
inductive InvokeOutcome where
  | success (interpretation : String)
  | failure (cause : String)
deriving DecidableEq, Repr

/-- The environment for one dispatch pass: what executing each invocation
would do (session.call_tool followed by send_tool_result). -/
def InvokeEnv : Type := Invocation → InvokeOutcome

/-- Embedding of MCPAPIClient._execute_tool_call: runs the invocation and
returns (text appended to the accumulator, tool name). All exceptions from
the call are caught, so on failure the synthesized diagnostic string is
returned and the name is still reported. -/
def _execute_tool_call (env : InvokeEnv) (inv : Invocation) : String × String :=
  match env inv with
  | .success interpretation => (interpretation, inv.name)
  | .failure cause => ("Tool '" ++ inv.name ++ "' failed: " ++ cause, inv.name)

/-- Rendering str(part) for the unknown-shape diagnostic branch. -/
def partStr (p : Part) : String :=
  toString (repr p)

/-- Embedding of the loop body of MCPAPIClient._execute_tool_and_gemini_summarise:
walks the parts of the model turn in order, accumulating (response_parts,
tools_used). The function_call attribute is tested before the text attribute,
matching the if/elif order in the source; the catch-all else appends a
diagnostic. The loop body itself raises nothing (every invocation outcome is
handled inside _execute_tool_call), so the enclosing try/except of the source
is unreachable once a parts list is in hand. -/
def _execute_tool_and_gemini_summarise (env : InvokeEnv) :
    List Part → List String × List String
  | [] => ([], [])
  | p :: rest =>
    let acc := _execute_tool_and_gemini_summarise env rest
    match p.function_call with
    | some inv =>
      let r := _execute_tool_call env inv
      (r.1 :: acc.1, r.2 :: acc.2)
    | none =>
      match p.text with
      | some t => (t :: acc.1, acc.2)
      | none => (("Unknown response type: " ++ partStr p) :: acc.1, acc.2)

/-- Embedding of MCPAPIClient._format_final_response: join the accumulator
with newlines, defaulting to the sentinel when it is empty. -/
def _format_final_response (response_parts : List String) : String :=
  if response_parts.isEmpty then "No response generated"
  else String.intercalate "\n" response_parts

/-- The (response text, tools used) pair produced for one model turn, as
assembled by process_query from the two functions above. -/
def process_turn (env : InvokeEnv) (parts : List Part) : String × List String :=
  let r := _execute_tool_and_gemini_summarise env parts
  (_format_final_response r.1, r.2)

/-! ### Theorems for claims C1, C3, C8, C10 -/

/-- C1: for every model turn, the tools-used list returned by
_execute_tool_and_gemini_summarise is exactly the names of the function-call
parts of the turn, in order — in particular it has the same length and order
as the sequence of invocation parts, regardless of whether each individual
invocation succeeds or fails (the environment is arbitrary). -/
theorem c1_tools_used_matches_invocations (env : InvokeEnv) (parts : List Part) :
    (_execute_tool_and_gemini_summarise env parts).2 =
      (parts.filterMap Part.function_call).map Invocation.name := by
  induction parts with
  | nil => rfl
  | cons p rest ih =>
    simp only [_execute_tool_and_gemini_summarise, List.filterMap_cons]
    cases hfc : p.function_call with
    | none =>
      cases ht : p.text with
      | none => simpa [hfc, ht] using ih
      | some t => simpa [hfc, ht] using ih
    | some inv =>
      cases h : env inv <;> simp [hfc, _execute_tool_call, h, ih]

/-- A concrete environment in which every invocation fails with a timeout,
used to exercise the failure path at concrete inputs. -/
def envTimeout : InvokeEnv := fun _ => .failure "timeout"

/-- C3 counterexample: when the convert_currency invocation fails with a
timeout, the string appended to the response accumulator is
"Tool 'convert_currency' failed: timeout", which is not the string
"convert_currency failed: timeout" that the claim says is appended. -/
theorem c3_counterexample :
    _execute_tool_and_gemini_summarise envTimeout
        [⟨some ⟨"convert_currency", [("amount", "100")]⟩, none⟩] =
      (["Tool 'convert_currency' failed: timeout"], ["convert_currency"]) ∧
    ("Tool 'convert_currency' failed: timeout" : String) ≠
      "convert_currency failed: timeout" :=
  ⟨rfl, by decide⟩

/-- C3 (amended): for every invocation whose execution fails, the dispatcher
appends the synthesized diagnostic string "Tool '<capability>' failed: <cause>"
to the response accumulator, still appends the capability name to the
tools-used list, does not raise, and continues to the next invocation
(the remaining parts are processed exactly as they would be on their own). -/
theorem c3_failure_appends_diagnostic_and_continues (env : InvokeEnv)
    (inv : Invocation) (cause : String) (rest : List Part)
    (h : env inv = .failure cause) :
    _execute_tool_and_gemini_summarise env (⟨some inv, none⟩ :: rest) =
      (("Tool '" ++ inv.name ++ "' failed: " ++ cause) ::
          (_execute_tool_and_gemini_summarise env rest).1,
        inv.name :: (_execute_tool_and_gemini_summarise env rest).2) := by
  simp [_execute_tool_and_gemini_summarise, _execute_tool_call, h]

/-- Witness for the amended C3 at a concrete failing invocation followed by a
text part: the diagnostic is appended, the name is recorded, and the text
part after the failure is still processed. -/
theorem c3_failure_appends_diagnostic_and_continues_witness :
    _execute_tool_and_gemini_summarise envTimeout
        (⟨some ⟨"convert_currency", [("amount", "100")]⟩, none⟩ ::
          [⟨none, some "done"⟩]) =
      (("Tool '" ++ "convert_currency" ++ "' failed: " ++ "timeout") :: ["done"],
        "convert_currency" :: ["done"].tail) :=
  c3_failure_appends_diagnostic_and_continues envTimeout
    ⟨"convert_currency", [("amount", "100")]⟩ "timeout" [⟨none, some "done"⟩] rfl

/-- C8 counterexample: a model turn with zero parts yields the response text
"No response generated" (capital N), not the sentinel "no response generated"
that the claim quotes. -/
theorem c8_counterexample :
    process_turn envTimeout [] = ("No response generated", []) ∧
    ("No response generated" : String) ≠ "no response generated" :=
  ⟨rfl, by decide⟩

/-- C8 (amended): a model turn with zero parts yields a result whose response
text is exactly the fixed sentinel "No response generated" (the default used
whenever the response accumulator is empty) and whose tools-used list is
empty, for every environment. -/
theorem c8_zero_parts_sentinel (env : InvokeEnv) :
    process_turn env [] = ("No response generated", []) := rfl

/-- C10: part classification gives the invocation shape precedence over the
text shape. If a part exposes a function_call, it is executed as a capability
invocation and its name appended to tools-used, whatever its text attribute
holds; the text branch is taken only for parts with text but no
function_call. -/
theorem c10_function_call_precedence (env : InvokeEnv) (p : Part)
    (rest : List Part) :
    (∀ inv, p.function_call = some inv →
      _execute_tool_and_gemini_summarise env (p :: rest) =
        ((_execute_tool_call env inv).1 ::
            (_execute_tool_and_gemini_summarise env rest).1,
          inv.name :: (_execute_tool_and_gemini_summarise env rest).2)) ∧
    (∀ t, p.function_call = none → p.text = some t →
      _execute_tool_and_gemini_summarise env (p :: rest) =
        (t :: (_execute_tool_and_gemini_summarise env rest).1,
          (_execute_tool_and_gemini_summarise env rest).2)) := by
  constructor
  · intro inv h
    cases henv : env inv <;>
      simp [_execute_tool_and_gemini_summarise, _execute_tool_call, h, henv]
  · intro t h ht
    simp [_execute_tool_and_gemini_summarise, h, ht]

/-- A part that exposes both a function_call attribute and a text attribute. -/
def partBoth : Part :=
  ⟨some ⟨"get_weather", [("location", "Paris")]⟩, some "some text"⟩

/-- Witness for C10: at a concrete part carrying both a function_call and a
text attribute, the invocation branch is taken. -/
theorem c10_function_call_precedence_witness :
    _execute_tool_and_gemini_summarise envTimeout (partBoth :: []) =
      ((_execute_tool_call envTimeout ⟨"get_weather", [("location", "Paris")]⟩).1 ::
          [], "get_weather" :: []) :=
  (c10_function_call_precedence envTimeout partBoth []).1
    ⟨"get_weather", [("location", "Paris")]⟩ rfl

/-! ### Session lifecycle (client.py: connect_to_server, cleanup)

MCPAPIClient holds session (Optional ClientSession), connected_server
(Optional str) and server_script_path (str, fixed to the default). The
embedding records for the session handle only what is observable: whether it
exists and whether initialize() completed on it. The transport environment
says at which step _establish_new_connection would fail. -/

/-- Observable state of the session handle: present with a handshake-complete
flag. session = some s with s.initialized = false corresponds to a
ClientSession object that was created but whose initialize() did not
complete. -/
structure SessionState where
  initialized : Bool
deriving DecidableEq, Repr

/-- The fields of MCPAPIClient that the lifecycle methods read and write. -/
structure ClientState where
  session : Option SessionState
  connected_server : Option String
  server_script_path : String
deriving DecidableEq, Repr

/-- How far the transport lets _establish_new_connection proceed:
stdio_client fails to spawn the process, entering ClientSession fails,
session.initialize() fails, or everything succeeds. -/
inductive EstablishOutcome where
  | spawnFails
  | sessionCreateFails
  | handshakeFails
  | succeeds
deriving DecidableEq, Repr

/-- Externally visible lifecycle actions, used to state that a call performs
no teardown and opens no new connection. -/
inductive LifecycleEffect where
  | teardown
  | spawn
deriving DecidableEq, Repr

/-- Result of a lifecycle call: the new field state, whether an exception
propagated to the caller, and the lifecycle actions performed. -/
structure ConnectResult where
  state : ClientState
  raised : Bool
  effects : List LifecycleEffect
deriving DecidableEq, Repr

/-- Embedding of MCPAPIClient._is_already_connected. -/
def _is_already_connected (s : ClientState) : Bool :=
  s.connected_server == some s.server_script_path && s.session.isSome

/-- The state update performed by cleanup's finally block: both fields are
cleared unconditionally. -/
def cleanupState (s : ClientState) : ClientState :=
  ⟨none, none, s.server_script_path⟩

/-- Embedding of MCPAPIClient._establish_new_connection. The source sets
self.session before awaiting initialize(), so a handshake failure leaves the
session field holding an uninitialized handle; earlier failures leave the
field as it was. Success records the connected server. An exception
propagates in every failing case. -/
def _establish_new_connection (env : EstablishOutcome) (s : ClientState) :
    ConnectResult :=
  match env with
  | .spawnFails => ⟨s, true, [.spawn]⟩
  | .sessionCreateFails => ⟨s, true, [.spawn]⟩
  | .handshakeFails => ⟨⟨some ⟨false⟩, s.connected_server, s.server_script_path⟩, true, [.spawn]⟩
  | .succeeds => ⟨⟨some ⟨true⟩, some s.server_script_path, s.server_script_path⟩, false, [.spawn]⟩

/-- Embedding of MCPAPIClient.connect_to_server: return immediately when
already connected to the same server; otherwise clean up any existing
session (cleanup clears both fields regardless of the transport, see
cleanup_always_ok) and establish a new connection. -/
def connect_to_server (env : EstablishOutcome) (s : ClientState) :
    ConnectResult :=
  if _is_already_connected s then ⟨s, false, []⟩
  else if s.session.isSome then
    let r := _establish_new_connection env (cleanupState s)
    ⟨r.state, r.raised, .teardown :: r.effects⟩
  else
    _establish_new_connection env s

/-- What exit_stack.aclose() does in MCPAPIClient.cleanup: succeeds or
raises with some message. -/
inductive CloseOutcome where
  | ok
  | raises (msg : String)
deriving DecidableEq, Repr

/-- The aclose() call as a fallible operation. -/
def aclose : CloseOutcome → Except String Unit
  | .ok => .ok ()
  | .raises msg => .error msg

/-- Embedding of MCPAPIClient.cleanup: try aclose; any exception is caught
and only logged; the finally block clears session and connected_server in
every case, so the call always returns normally with cleared state. -/
def cleanup (env : CloseOutcome) (s : ClientState) : Except String ClientState :=
  match aclose env with
  | .ok _ => .ok (cleanupState s)
  | .error _ => .ok (cleanupState s)

/-- The observable the /health endpoint reports: connected iff the session
field is non-null. -/
def health_connected (s : ClientState) : Bool :=
  s.session.isSome

/-- The fresh client state built by MCPAPIClient.__init__. -/
def initialState : ClientState :=
  ⟨none, none, "server/server.py"⟩

/-! ### Theorems for claims C2, C4, C7 -/

/-- C2 counterexample: starting from the fresh state, when the handshake
(initialize) step fails, connect_to_server raises, yet the session field is
not absent: it holds an uninitialized handle, and the health endpoint
reports connected. This refutes the claim that after a failed connect the
observable state is the same as having no session. -/
theorem c2_counterexample :
    (connect_to_server .handshakeFails initialState).raised = true ∧
    (connect_to_server .handshakeFails initialState).state.session ≠ none ∧
    (connect_to_server .handshakeFails initialState).state.session =
      some ⟨false⟩ ∧
    health_connected (connect_to_server .handshakeFails initialState).state =
      true := by
  refine ⟨rfl, ?_, rfl, rfl⟩
  decide

/-- C2 (amended): on a connect attempt that raises, the session is left
absent when the process cannot be spawned or the session object cannot be
created; but when the handshake step fails, the session field holds a
partially-initialized (handshake-incomplete) handle, which is observable to
callers. -/
theorem c2_failed_connect_session_state (env : EstablishOutcome)
    (s : ClientState) (h : (connect_to_server env s).raised = true) :
    ((env = .spawnFails ∨ env = .sessionCreateFails) →
      (connect_to_server env s).state.session = none) ∧
    (env = .handshakeFails →
      (connect_to_server env s).state.session = some ⟨false⟩) := by
  by_cases hc : _is_already_connected s = true
  · simp [connect_to_server, hc] at h
  · have hc' : _is_already_connected s = false := by simpa using hc
    constructor
    · rintro (rfl | rfl) <;>
        cases hsome : s.session <;>
          simp [connect_to_server, hc', hsome, _establish_new_connection,
            cleanupState]
    · rintro rfl
      cases hsome : s.session <;>
        simp [connect_to_server, hc', hsome, _establish_new_connection,
          cleanupState]

/-- Witness for the amended C2: concrete failing connects from the fresh
state. Spawn failure leaves the session absent; handshake failure leaves an
uninitialized handle. -/
theorem c2_failed_connect_session_state_witness :
    (connect_to_server .spawnFails initialState).state.session = none ∧
    (connect_to_server .handshakeFails initialState).state.session =
      some ⟨false⟩ :=
  ⟨(c2_failed_connect_session_state .spawnFails initialState rfl).1
      (Or.inl rfl),
    (c2_failed_connect_session_state .handshakeFails initialState rfl).2 rfl⟩

/-- C4: when a connect call returns without raising, a second connect call
(under any transport environment) is a no-op: it leaves the state unchanged,
does not raise, and performs no teardown and no new connection. -/
theorem c4_connect_idempotent (env1 env2 : EstablishOutcome)
    (s : ClientState) (h : (connect_to_server env1 s).raised = false) :
    connect_to_server env2 (connect_to_server env1 s).state =
      ⟨(connect_to_server env1 s).state, false, []⟩ := by
  have key : ∀ t : ClientState, _is_already_connected t = true →
      connect_to_server env2 t = ⟨t, false, []⟩ := by
    intro t ht
    simp [connect_to_server, ht]
  apply key
  by_cases hc : _is_already_connected s = true
  · simp [connect_to_server, hc]
  · have hc' : _is_already_connected s = false := by simpa using hc
    cases env1 <;> cases hsome : s.session <;>
      simp [connect_to_server, hc', hsome, _establish_new_connection,
        cleanupState] at h ⊢ <;>
      simp [_is_already_connected]

/-- Witness for C4: a successful connect from the fresh state followed by a
second connect leaves the state unchanged with no effects. -/
theorem c4_connect_idempotent_witness :
    connect_to_server .succeeds (connect_to_server .succeeds initialState).state =
      ⟨(connect_to_server .succeeds initialState).state, false, []⟩ :=
  c4_connect_idempotent .succeeds .succeeds initialState (by decide)

/-- C7: cleanup always succeeds from the caller's point of view: whether or
not releasing the transport raises, and whether or not a session exists, no
error propagates and afterwards the session handle and connected target are
both cleared. -/
theorem c7_cleanup_always_ok (env : CloseOutcome) (s : ClientState) :
    ∃ s', cleanup env s = .ok s' ∧ s'.session = none ∧
      s'.connected_server = none := by
  cases env <;> exact ⟨cleanupState s, rfl, rfl, rfl⟩

/-! ### Schema translation (gemini_service.py)

Tool input schemas are JSON values; the translation walks them duck-typed
(isinstance checks), so we embed a small JSON value type. -/

/-- A JSON value as manipulated by the Python code. -/
inductive JValue where
  | obj (fields : List (String × JValue))
  | arr (items : List JValue)
  | str (s : String)
  | num (n : Int)
  | bool (b : Bool)
  | null

/-- Python truthiness of a JSON value: empty containers, empty strings,
zero, False and None are falsy. -/
def jTruthy : JValue → Bool
  | .obj fields => !fields.isEmpty
  | .arr items => !items.isEmpty
  | .str s => !(s == "")
  | .num n => !(n == 0)
  | .bool b => b
  | .null => false

/-- Dictionary lookup on the field list of a JSON object. -/
def jLookup (fields : List (String × JValue)) (key : String) : Option JValue :=
  (fields.find? (fun p => p.1 == key)).map (fun p => p.2)

/-- An MCP tool descriptor as the translation reads it: a name, an optional
description (None or empty string count as missing), and the inputSchema
attribute when present. -/
structure MCPTool where
  name : String
  description : Option String
  inputSchema : Option JValue

/-- The parameters object built for one Gemini function declaration. -/
structure GeminiParams where
  type : String
  properties : List (String × JValue)
  required : JValue

/-- One Gemini function declaration. -/
structure FunctionDeclaration where
  name : String
  description : String
  parameters : GeminiParams

/-- One entry of the available_tools list: a dict with a singleton
function_declarations list. -/
structure GeminiTool where
  function_declarations : List FunctionDeclaration

/-- The clean_prop loop body: keep only the type, description and enum
fields of a property schema, in that order. -/
def cleanProp (fields : List (String × JValue)) : List (String × JValue) :=
  (match jLookup fields "type" with
    | some v => [("type", v)]
    | none => []) ++
  (match jLookup fields "description" with
    | some v => [("description", v)]
    | none => []) ++
  (match jLookup fields "enum" with
    | some v => [("enum", v)]
    | none => [])

/-- The clean_properties loop: a property whose schema is not a dict is
skipped (the isinstance check), the others are cleaned. -/
def cleanProperties (props : List (String × JValue)) :
    List (String × JValue) :=
  props.filterMap (fun p =>
    match p.2 with
    | .obj fs => some (p.1, JValue.obj (cleanProp fs))
    | _ => none)

/-- The parameters value the loop body builds for a tool, or none when the
body raises (the only raising step on this embedding: the schema has a
properties field whose value is not a dict, so .items() fails). A missing
or falsy or non-dict inputSchema keeps the initial default parameters. -/
def toolParameters (t : MCPTool) : Option GeminiParams :=
  let defaultParams : GeminiParams := ⟨"object", [], JValue.arr []⟩
  match t.inputSchema with
  | none => some defaultParams
  | some s =>
    if jTruthy s then
      match s with
      | .obj fields =>
        match jLookup fields "properties" with
        | some (.obj props) =>
          some ⟨"object", cleanProperties props,
            (jLookup fields "required").getD (JValue.arr [])⟩
        | some _ => none
        | none =>
          some ⟨"object", [],
            (jLookup fields "required").getD (JValue.arr [])⟩
      | _ => some defaultParams
    else some defaultParams

/-- The description attached to a declaration: tool.description when truthy,
else the synthesized fallback. -/
def toolDescription (t : MCPTool) : String :=
  match t.description with
  | some d => if d == "" then "Tool: " ++ t.name else d
  | none => "Tool: " ++ t.name

/-- The body of the conversion loop for one tool: none means the tool was
skipped by the except/continue branch. -/
def convert_one_tool (t : MCPTool) : Option GeminiTool :=
  (toolParameters t).map (fun p => ⟨[⟨t.name, toolDescription t, p⟩]⟩)

/-- Embedding of GeminiService.convert_mcp_tools_to_gemini_format. -/
def convert_mcp_tools_to_gemini_format (ts : List MCPTool) : List GeminiTool :=
  ts.filterMap convert_one_tool

/-! ### Sending the query to the model (client.py / gemini_service.py) -/

/-- The observable shape of one chat.send_message call: the message text and
the tools argument if one was passed. -/
structure SendCall where
  message : String
  tools : Option (List GeminiTool)

/-- Embedding of GeminiService.send_message: the tools keyword is forwarded
only when the argument is truthy (non-None and non-empty). -/
def send_message (message : String) (tools : Option (List GeminiTool)) :
    SendCall :=
  match tools with
  | some ts => if ts.isEmpty then ⟨message, none⟩ else ⟨message, some ts⟩
  | none => ⟨message, none⟩

/-- Embedding of MCPAPIClient.ask_gemini_which_tool_to_use: pass the tools
argument only when the available_tools list is truthy (non-empty). -/
def ask_gemini_which_tool_to_use (query : String)
    (available_tools : List GeminiTool) : SendCall :=
  if available_tools.isEmpty then send_message query none
  else send_message query (some available_tools)

/-! ### Resilient HTTP layer (server.py: make_request) -/

/-- What one attempt of the HTTP GET does: a 2xx response with a JSON body,
an error status (raise_for_status fires for codes at 400 and above), a
network/timeout/connect error, or any other exception. -/
inductive AttemptOutcome where
  | success (body : JValue)
  | httpStatus (code : Nat)
  | networkError (msg : String)
  | otherError (msg : String)

/-- The network environment: the outcome each attempt would see. -/
def FetchEnv : Type := Nat → AttemptOutcome

/-- The attempt cap of make_request (the range bound of the retry loop). -/
def max_retries : Nat := 2

/-- The backoff base of make_request, in seconds. -/
def base_delay : Nat := 1

/-- The retry loop of make_request, by the number of remaining iterations.
Returns the result together with the list of backoff delays slept, each
being base_delay * 2 ^ attempt. A 4xx status returns immediately; a 5xx
status or a network error returns on the last attempt and otherwise sleeps
and retries; any other exception returns immediately. Every branch returns:
no exception escapes. -/
def request_attempts (o : FetchEnv) : Nat → Nat → Option JValue × List Nat
  | _, 0 => (none, [])
  | attempt, r + 1 =>
    match o attempt with
    | .success body => (some body, [])
    | .httpStatus code =>
      if 400 ≤ code ∧ code < 500 then (none, [])
      else if r = 0 then (none, [])
      else
        let rest := request_attempts o (attempt + 1) r
        (rest.1, base_delay * 2 ^ attempt :: rest.2)
    | .networkError _ =>
      if r = 0 then (none, [])
      else
        let rest := request_attempts o (attempt + 1) r
        (rest.1, base_delay * 2 ^ attempt :: rest.2)
    | .otherError _ => (none, [])

/-- Embedding of server.make_request: run the retry loop from attempt 0 with
max_retries iterations available. -/
def make_request (o : FetchEnv) : Option JValue × List Nat :=
  request_attempts o 0 max_retries

/-- The transient classification of an attempt outcome: a 5xx status or a
network/timeout/connect failure. -/
def transient : AttemptOutcome → Bool
  | .httpStatus code => decide (500 ≤ code) && decide (code < 600)
  | .networkError _ => true
  | _ => false

/-! ### Theorems for claims C5, C6, C9 -/

/-- C5: make_request never lets an exception escape (it is a total function
into an Option result). A 4xx status on the first attempt yields none with
no retry and no backoff sleep; when every attempt sees a transient outcome
(a 5xx status or a network/timeout failure), the call retries with backoff
delay base_delay * 2 ^ attempt up to the attempt cap and then resolves to
none — in particular consecutive 503 responses yield none; any other
exception yields none immediately. -/
theorem c5_make_request_classification (o : FetchEnv) :
    (∀ code, 400 ≤ code → code < 500 → o 0 = .httpStatus code →
      make_request o = (none, [])) ∧
    ((∀ i, transient (o i) = true) →
      make_request o = (none, [base_delay * 2 ^ 0])) ∧
    (∀ msg, o 0 = .otherError msg → make_request o = (none, [])) := by
  refine ⟨?_, ?_, ?_⟩
  · intro code h4 h5 h0
    simp [make_request, max_retries, request_attempts, h0, h4, h5]
  · intro h
    have h0 := h 0
    have h1 := h 1
    rcases ho0 : o 0 with b0 | c0 | m0 | m0
    · rw [ho0] at h0; simp [transient] at h0
    · rw [ho0] at h0
      simp only [transient, Bool.and_eq_true, decide_eq_true_eq] at h0
      have hno : ¬(400 ≤ c0 ∧ c0 < 500) := by omega
      rcases ho1 : o 1 with b1 | c1 | m1 | m1
      · rw [ho1] at h1; simp [transient] at h1
      · simp [make_request, max_retries, request_attempts, ho0, ho1, hno]
      · simp [make_request, max_retries, request_attempts, ho0, ho1, hno]
      · rw [ho1] at h1; simp [transient] at h1
    · rcases ho1 : o 1 with b1 | c1 | m1 | m1
      · rw [ho1] at h1; simp [transient] at h1
      · simp [make_request, max_retries, request_attempts, ho0, ho1]
      · simp [make_request, max_retries, request_attempts, ho0, ho1]
      · rw [ho1] at h1; simp [transient] at h1
    · rw [ho0] at h0; simp [transient] at h0
  · intro msg h0
    simp [make_request, max_retries, request_attempts, h0]

/-- The environment of Scenario E: every attempt sees a 503 response. -/
def env503 : FetchEnv := fun _ => .httpStatus 503

/-- An environment whose first attempt sees a 404 response. -/
def env404 : FetchEnv := fun _ => .httpStatus 404

/-- An environment whose every attempt times out. -/
def envNet : FetchEnv := fun _ => .networkError "timeout"

/-- An environment whose first attempt raises an unexpected exception. -/
def envBoom : FetchEnv := fun _ => .otherError "boom"

/-- Witness for C5 at concrete environments: a 404 fails immediately with no
retry; consecutive 503 responses and consecutive timeouts exhaust the cap
after one backoff sleep and resolve to none; an unexpected exception fails
immediately. -/
theorem c5_make_request_classification_witness :
    make_request env404 = (none, []) ∧
    make_request env503 = (none, [base_delay * 2 ^ 0]) ∧
    make_request envNet = (none, [base_delay * 2 ^ 0]) ∧
    make_request envBoom = (none, []) :=
  ⟨(c5_make_request_classification env404).1 404 (by decide) (by decide) rfl,
    (c5_make_request_classification env503).2.1 (fun _ => rfl),
    (c5_make_request_classification envNet).2.1 (fun _ => rfl),
    (c5_make_request_classification envBoom).2.2 "boom" rfl⟩

/-- C6: the schema translation yields at most one declaration per input
descriptor (output length at most input length); every output declaration
carries the name of some input descriptor; a descriptor whose schema cannot
be interpreted is skipped without aborting the batch (dropping it from any
position leaves the translation of the remaining descriptors); and the
translation is deterministic in its input sequence. -/
theorem c6_translation_shape (ts : List MCPTool) :
    (convert_mcp_tools_to_gemini_format ts).length ≤ ts.length ∧
    (∀ g ∈ convert_mcp_tools_to_gemini_format ts,
      ∀ d ∈ g.function_declarations, ∃ t ∈ ts, d.name = t.name) ∧
    (∀ ts1 ts2 t, convert_one_tool t = none →
      convert_mcp_tools_to_gemini_format (ts1 ++ t :: ts2) =
        convert_mcp_tools_to_gemini_format (ts1 ++ ts2)) ∧
    (∀ ts', ts = ts' →
      convert_mcp_tools_to_gemini_format ts =
        convert_mcp_tools_to_gemini_format ts') := by
  refine ⟨?_, ?_, ?_, ?_⟩
  · exact List.length_filterMap_le _ _
  · intro g hg d hd
    obtain ⟨t, ht, hconv⟩ := List.mem_filterMap.mp hg
    refine ⟨t, ht, ?_⟩
    obtain ⟨p, hp, rfl⟩ := Option.map_eq_some'.mp hconv
    simp only [List.mem_singleton] at hd
    rw [hd]
  · intro ts1 ts2 t h
    simp [convert_mcp_tools_to_gemini_format, List.filterMap_append,
      List.filterMap_cons, h]
  · intro ts' h
    rw [h]

/-- Scenario A descriptor: get_weather with a single required string
parameter named location. -/
def weatherDescriptor : MCPTool :=
  ⟨"get_weather", some "Get weather for a location", some (JValue.obj
    [("properties", JValue.obj
        [("location", JValue.obj [("type", JValue.str "string")])]),
      ("required", JValue.arr [JValue.str "location"])])⟩

/-- The declaration the translation produces for weatherDescriptor. -/
def weatherDeclaration : FunctionDeclaration :=
  ⟨"get_weather", "Get weather for a location",
    ⟨"object", [("location", JValue.obj [("type", JValue.str "string")])],
      JValue.arr [JValue.str "location"]⟩⟩

/-- A descriptor whose schema cannot be interpreted: its properties field is
not an object, so the conversion of this descriptor raises and the loop
skips it. -/
def badDescriptor : MCPTool :=
  ⟨"broken", none, some (JValue.obj [("properties", JValue.str "oops")])⟩

/-- Witness for C6 at concrete descriptors: the translated declaration for
the Scenario A descriptor carries a descriptor name from the input; the
uninterpretable descriptor is skipped without aborting the batch; and the
translation of the Scenario A batch is deterministic. -/
theorem c6_translation_shape_witness :
    (∃ t ∈ [weatherDescriptor], weatherDeclaration.name = t.name) ∧
    convert_mcp_tools_to_gemini_format
        ([weatherDescriptor] ++ badDescriptor :: [weatherDescriptor]) =
      convert_mcp_tools_to_gemini_format
        ([weatherDescriptor] ++ [weatherDescriptor]) ∧
    convert_mcp_tools_to_gemini_format [weatherDescriptor] =
      convert_mcp_tools_to_gemini_format [weatherDescriptor] := by
  refine ⟨?_, ?_, ?_⟩
  · have hmem : (⟨[weatherDeclaration]⟩ : GeminiTool) ∈
        convert_mcp_tools_to_gemini_format [weatherDescriptor] := by
      have hval : convert_mcp_tools_to_gemini_format [weatherDescriptor] =
          [⟨[weatherDeclaration]⟩] := rfl
      rw [hval]
      exact List.mem_singleton.mpr rfl
    exact (c6_translation_shape [weatherDescriptor]).2.1
      ⟨[weatherDeclaration]⟩ hmem weatherDeclaration
      (List.mem_singleton.mpr rfl)
  · exact (c6_translation_shape []).2.2.1 [weatherDescriptor]
      [weatherDescriptor] badDescriptor rfl
  · exact (c6_translation_shape [weatherDescriptor]).2.2.2
      [weatherDescriptor] rfl

/-- C9: when the translated capability list is empty, the query is sent to
the model with the tools argument omitted entirely; when it is non-empty,
the declarations are passed. -/
theorem c9_empty_tools_omitted (query : String) (ts : List GeminiTool) :
    (ts = [] → (ask_gemini_which_tool_to_use query ts).tools = none) ∧
    (ts ≠ [] → (ask_gemini_which_tool_to_use query ts).tools = some ts) := by
  constructor
  · rintro rfl
    rfl
  · intro h
    cases ts with
    | nil => exact absurd rfl h
    | cons a l => simp [ask_gemini_which_tool_to_use, send_message]

/-- Witness for C9: the empty list omits the tools argument; a concrete
singleton list is passed through. -/
theorem c9_empty_tools_omitted_witness :
    (ask_gemini_which_tool_to_use "plan my trip" []).tools = none ∧
    (ask_gemini_which_tool_to_use "plan my trip"
        [⟨[weatherDeclaration]⟩]).tools = some [⟨[weatherDeclaration]⟩] :=
  ⟨(c9_empty_tools_omitted "plan my trip" []).1 rfl,
    (c9_empty_tools_omitted "plan my trip" [⟨[weatherDeclaration]⟩]).2
      (List.cons_ne_nil _ _)⟩

end AitklMcp
